import Mathlib

set_option maxRecDepth 16384

/-!
Verification of the pipeline-orchestration and artifact-path-resolution
layer of `src/SCENIC/pySCENIC_pipeline.py`.

The Python source is shallowly embedded below.  Pure functions (path
derivation, command-string construction, CLI option normalization, the
boolean-mask row selection used for cell-type subsetting) become Lean
functions; fallible code (the `ValueError` raised by path validation, the
`KeyError` raised by a missing pandas column) becomes `Except`; the
`os.makedirs` side effect is made explicit by returning the list of
directories created; the dependence of `glob.glob` on the filesystem is
made explicit by passing the glob result as an argument.
-/

/-- Embedding of `os.path.join(a, b)` (posixpath semantics for two segments): an
absolute second segment replaces the first; otherwise a separator is
inserted unless the first segment is empty or already ends in one.  The
starts-with/ends-with tests are phrased on the underlying character
lists so that concrete joins evaluate. -/
def ospJoin (a b : String) : String :=
  if b.data.head? == some '/' then b
  else if a.data.isEmpty || (a.data.getLast? == some '/') then a ++ b
  else a ++ "/" ++ b

/-- Python truthiness of the optional `cell_type` string argument:
`None` and the empty string are falsy. -/
def cellTypeTruthy : Option String → Bool
  | none => false
  | some s => s != ""

/-- The dictionary of paths returned by `DataLoader.get_analysis_paths`
(source lines 76-110), with one field per key. -/
structure PathSet where
  base : String
  databases : String
  raw_data : String
  output : String
  figures : String
  human_tfs : String
  ranking_dbs : String
  motif_annotations : String
  raw_matrix : String
  metadata : String
  anndata : String
  filtered_loom : String
  adjacencies : String
  regulons : String
  pyscenic_output : String
  aucell_mtx : String
deriving DecidableEq

/-- Source lines 80 and 88-91: the `output` entry is
`<base>/<dataset_id>/<sample_id>`, extended with a `pruned`/`unpruned`
segment when the `pruning` argument is not `None`. -/
def outputDir (base_folder dataset_id sample_id : String)
    (pruning : Option Bool) : String :=
  match pruning with
  | none => ospJoin (ospJoin base_folder dataset_id) sample_id
  | some b =>
    ospJoin (ospJoin (ospJoin base_folder dataset_id) sample_id)
      (if b then "pruned" else "unpruned")

/-- Source line 93: `suffix = f"{cell_type}_" if cell_type else ""`,
the filename prefix applied to every generated artifact. -/
def cellTypeTag (cell_type : Option String) : String :=
  if cellTypeTruthy cell_type then cell_type.getD "" ++ "_" else ""

/-- Embedding of `DataLoader.get_analysis_paths` (source lines 58-110).

The `featherGlob` argument embeds the result of
`glob.glob(os.path.join(paths['databases'], '*.feather'))` at line 98:
the list of ranking-database files actually present on disk.  The second
component of the result is the list of directories created by the
`os.makedirs(folder, exist_ok=True)` loop at lines 85-86; note that the
loop runs over the five base paths before the pruning segment is appended
to `output` at lines 89-91, so the pruning-specific directory is not among
them.  `makedirs` is called with `exist_ok=True`, so directory creation
itself never fails and is not a source of errors in the model.  The
validation at lines 72-73 compares `cell_type` against the exact strings
`'Tumor'` and `'Non-Tumor'` (case-sensitively) and raises `ValueError`
otherwise, with Python truthiness exempting `None` and `""`. -/
def get_analysis_paths (base_folder dataset_id sample_id : String)
    (cell_type : Option String) (pruning : Option Bool)
    (featherGlob : List String) : Except String (PathSet × List String) :=
  if cellTypeTruthy cell_type
      && !(["Tumor", "Non-Tumor"].contains (cell_type.getD "")) then
    Except.error "cell_type must be Tumor, Non-Tumor, or None"
  else
    Except.ok
      ({ base := base_folder
         databases := ospJoin base_folder "databases"
         raw_data := ospJoin (ospJoin base_folder dataset_id) "raw_data"
         output := outputDir base_folder dataset_id sample_id pruning
         figures :=
           ospJoin (ospJoin (ospJoin base_folder dataset_id) sample_id)
             "figures"
         human_tfs :=
           ospJoin (ospJoin base_folder "databases") "allTFs_hg38.txt"
         ranking_dbs := String.intercalate " " featherGlob
         motif_annotations :=
           ospJoin (ospJoin base_folder "databases")
             "motifs-v10nr_clust-nr.hgnc-m0.001-o0.0.tbl"
         raw_matrix :=
           ospJoin (ospJoin (ospJoin base_folder dataset_id) "raw_data")
             "C3L-00004-T1_CPT0001540013_snRNA_ccRCC/outs/raw_feature_bc_matrix/"
         metadata :=
           ospJoin (ospJoin (ospJoin base_folder dataset_id) "raw_data")
             "GSE240822_GBM_ccRCC_RNA_metadata_CPTAC_samples.tsv.gz"
         anndata :=
           ospJoin (outputDir base_folder dataset_id sample_id pruning)
             (cellTypeTag cell_type ++ "anndata.h5ad")
         filtered_loom :=
           ospJoin (outputDir base_folder dataset_id sample_id pruning)
             (cellTypeTag cell_type ++ "filtered_scenic.loom")
         adjacencies :=
           ospJoin (outputDir base_folder dataset_id sample_id pruning)
             (cellTypeTag cell_type ++ "adjacencies.csv")
         regulons :=
           ospJoin (outputDir base_folder dataset_id sample_id pruning)
             (cellTypeTag cell_type ++ "reg.csv")
         pyscenic_output :=
           ospJoin (outputDir base_folder dataset_id sample_id pruning)
             (cellTypeTag cell_type ++ "pyscenic_output.loom")
         aucell_mtx :=
           ospJoin (outputDir base_folder dataset_id sample_id pruning)
             (cellTypeTag cell_type ++ "auc.csv") },
       [base_folder,
        ospJoin base_folder "databases",
        ospJoin (ospJoin base_folder dataset_id) "raw_data",
        ospJoin (ospJoin base_folder dataset_id) sample_id,
        ospJoin (ospJoin (ospJoin base_folder dataset_id) sample_id)
          "figures"])

/-- Source line 582 of `WorkflowManager.run_pyscenic_workflow`:
`data_loader.paths = data_loader.get_analysis_paths(self.base_folder,
self.dataset_id, self.sample_id, self.cell_type)` — the call passes only
the base folder, dataset, sample and cell type, so the `pruning`
parameter falls back to its default `None`.  These are the paths every
subsequent workflow step (loom creation, GRN inference, context
inference, AUCell) actually uses. -/
def workflowAnalysisPaths (base_folder dataset_id sample_id : String)
    (cell_type : Option String) (featherGlob : List String) :
    Except String (PathSet × List String) :=
  get_analysis_paths base_folder dataset_id sample_id cell_type none
    featherGlob

/-- Python `str.lower()`: each character lowercased (phrased on the
underlying character list so that concrete values evaluate). -/
def strToLower (s : String) : String :=
  String.mk (s.data.map Char.toLower)

/-- Embedding of the `parse_arguments` handling of `--cell_type` (source lines 666-671):
the value is lowercased in place; `"none"` becomes `None`; anything other
than `"tumor"`/`"non-tumor"` raises `ValueError`.  Note the accepted
values are returned in lowercase. -/
def parseCellType : Option String → Except String (Option String)
  | none => Except.ok none
  | some s =>
    let t := strToLower s
    if t == "none" then Except.ok none
    else if t == "tumor" || t == "non-tumor" then Except.ok (some t)
    else Except.error "Invalid value for --cell_type"

/-- Embedding of the `parse_arguments` handling of `--prune` (source lines 654-663). -/
def parsePrune : Option String → Except String (Option Bool)
  | none => Except.ok none
  | some s =>
    let t := strToLower s
    if t == "true" then Except.ok (some true)
    else if t == "false" then Except.ok (some false)
    else if t == "none" then Except.ok none
    else Except.error "Invalid value for --prune"

/-- Embedding of the `GRNInference.run_grn_inference` command string (source line 328). -/
def grnCommand (p : PathSet) : String :=
  "pyscenic grn " ++ p.filtered_loom ++ " " ++ p.human_tfs ++ " -o "
    ++ p.adjacencies ++ " --num_workers 20"

/-- The pruning-independent part of the `GRNInference.run_ctx_inference`
command string (source lines 346-352). -/
def ctxCommandBase (p : PathSet) : String :=
  "pyscenic ctx " ++ p.adjacencies ++ " " ++ p.ranking_dbs
    ++ " --annotations_fname " ++ p.motif_annotations
    ++ " --expression_mtx_fname " ++ p.filtered_loom
    ++ " --output " ++ p.regulons
    ++ " --mask_dropouts --num_workers 20"

/-- Embedding of `GRNInference.run_ctx_inference` (source lines 335-360): the
`--no_pruning` flag is appended exactly when `pruning is False`; `True`
and `None` leave the base command unchanged. -/
def ctxCommand (p : PathSet) (pruning : Option Bool) : String :=
  match pruning with
  | some false => ctxCommandBase p ++ " --no_pruning"
  | _ => ctxCommandBase p

/-- Embedding of the `GRNInference.run_aucell` command string (source line 369). -/
def aucellCommand (p : PathSet) : String :=
  "pyscenic aucell " ++ p.filtered_loom ++ " " ++ p.regulons
    ++ " --output " ++ p.pyscenic_output ++ " --num_workers 20"

/-- Substring containment on strings, used to state which flags and file
names occur in a built command line. -/
def strContains (s pat : String) : Prop :=
  pat.data <:+: s.data

instance (s pat : String) : Decidable (strContains s pat) :=
  inferInstanceAs (Decidable (pat.data <:+: s.data))

/-- The errors the embedded workflow code can raise.  `keyError` embeds
the pandas `KeyError` raised when an `adata.obs` column is accessed but
absent; this is the error the spec's taxonomy calls
`MissingAnnotationError`. -/
inductive WorkflowError where
  | keyError : String → WorkflowError
deriving DecidableEq

/-- The slice of an `AnnData` object the subsetting step looks at: the
number of rows (cells) and, when the column exists, the per-cell values
of `adata.obs['cell_type.harmonized.cancer']`. -/
structure AnnData where
  nRows : Nat
  harmonizedCellType : Option (List String)
deriving DecidableEq

/-- Row selection by a boolean mask, as performed by `adata[mask]`:
the indices (from `start`) whose mask entry is true, in order. -/
def maskIndicesFrom (start : Nat) : List Bool → List Nat
  | [] => []
  | b :: rest =>
    if b then start :: maskIndicesFrom (start + 1) rest
    else maskIndicesFrom (start + 1) rest

/-- The cell-type subsetting step of `run_pyscenic_workflow` (source
lines 565-577), returning the indices of the rows kept.  When
`self.cell_type` is truthy the code first builds the
`subset_conditions` dictionary, whose two values both read
`adata.obs['cell_type.harmonized.cancer']` — so a missing column raises
(`KeyError`) before any mask is applied.  `'Tumor'` keeps rows whose
annotation value equals the literal `'Tumor'`; `'Non-Tumor'` keeps rows
whose value is different from `'Tumor'`; any other truthy cell type only
logs a warning and applies no subsetting. -/
def subsetStep (cell_type : Option String) (adata : AnnData) :
    Except WorkflowError (List Nat) :=
  if cellTypeTruthy cell_type then
    match adata.harmonizedCellType with
    | none => Except.error (WorkflowError.keyError "cell_type.harmonized.cancer")
    | some col =>
      if cell_type.getD "" == "Tumor" then
        Except.ok (maskIndicesFrom 0 (col.map (fun v => v == "Tumor")))
      else if cell_type.getD "" == "Non-Tumor" then
        Except.ok (maskIndicesFrom 0 (col.map (fun v => !(v == "Tumor"))))
      else
        Except.ok (List.range adata.nRows)
  else
    Except.ok (List.range adata.nRows)

/-- The successive operations of `run_pyscenic_workflow` (source lines
556-631), in program order.  Each external `pyscenic` call is one entry;
each file read that follows it is one entry; the body is straight-line
Python with no `try`/`except` and `subprocess.run(..., check=True)`, so
an exception in any entry propagates and ends the run. -/
def pyscenicStageNames : List String :=
  ["read_anndata", "subset_by_cell_type", "resolve_paths",
   "create_loom_file", "grn_inference_subprocess", "read_adjacencies",
   "ctx_inference_subprocess", "read_regulons",
   "plot_gene_distribution", "aucell_subprocess", "read_aucell_output",
   "aucell_dimensionality_reduction", "plot_regulons"]

/-- How many of a straight-line sequence of operations are entered when
each completed operation hands control to the next and a raised error
ends the run: every prefix operation up to and including the first
failing one. -/
def invokedStages : List (Except String Unit) → Nat
  | [] => 0
  | Except.ok _ :: rest => invokedStages rest + 1
  | Except.error _ :: _ => 1

/-- The number of `run_pyscenic_workflow` operations entered, given the
outcome (normal return or raised error) of each operation body. -/
def runPyscenicStages (outcome : String → Except String Unit) : Nat :=
  invokedStages (pyscenicStageNames.map outcome)

/-- Stage `k` (0-based, in the order of `pyscenicStageNames`) is entered
during the run. -/
def stageInvoked (outcome : String → Except String Unit) (k : Nat) : Prop :=
  k < runPyscenicStages outcome

/-- What the AUCell step does before and at its subprocess call. -/
structure AucellStageTrace where
  subprocessCommands : List String
  raisedBefore : Option WorkflowError
deriving DecidableEq

/-- Step 5 of `run_pyscenic_workflow` (source lines 612-618): the stage
logs the command and calls `subprocess.run(aucell_config['command'],
shell=True, check=True)`.  `fs` is the set of files present on disk when
the stage is entered; the stage body performs no filesystem check before
the subprocess call (in particular it never tests whether the regulons
file named in the command exists), and the program defines no
`UnmetDependencyError` anywhere. -/
def aucellStage (fs : List String) (p : PathSet) : AucellStageTrace :=
  { subprocessCommands := [aucellCommand p], raisedBefore := none }

/-- A concrete `PathSet` fixture (the shape produced by
`get_analysis_paths "b" "d" "s" (some "Tumor") none` with one ranking
database present), used by witness theorems. -/
def pexample : PathSet :=
  { base := "b"
    databases := "b/databases"
    raw_data := "b/d/raw_data"
    output := "b/d/s"
    figures := "b/d/s/figures"
    human_tfs := "b/databases/allTFs_hg38.txt"
    ranking_dbs := "b/databases/r1.feather"
    motif_annotations := "b/databases/motifs.tbl"
    raw_matrix := "b/d/raw_data/mtx/"
    metadata := "b/d/raw_data/meta.tsv.gz"
    anndata := "b/d/s/Tumor_anndata.h5ad"
    filtered_loom := "b/d/s/Tumor_filtered_scenic.loom"
    adjacencies := "b/d/s/Tumor_adjacencies.csv"
    regulons := "b/d/s/Tumor_reg.csv"
    pyscenic_output := "b/d/s/Tumor_pyscenic_output.loom"
    aucell_mtx := "b/d/s/Tumor_auc.csv" }

theorem maskIndicesFrom_lower (mask : List Bool) :
    ∀ s i, i ∈ maskIndicesFrom s mask → s ≤ i := by
  induction mask with
  | nil => intro s i h; simp [maskIndicesFrom] at h
  | cons b rest ih =>
    intro s i h
    simp only [maskIndicesFrom] at h
    split at h
    · rcases List.mem_cons.mp h with h1 | h1
      · omega
      · have := ih (s + 1) i h1; omega
    · have := ih (s + 1) i h; omega

theorem maskIndicesFrom_partition (mask : List Bool) :
    ∀ s i,
      ((i ∈ maskIndicesFrom s mask ∨ i ∈ maskIndicesFrom s (mask.map (!·))) ↔
        (s ≤ i ∧ i < s + mask.length)) ∧
      ¬(i ∈ maskIndicesFrom s mask ∧ i ∈ maskIndicesFrom s (mask.map (!·))) := by
  induction mask with
  | nil =>
    intro s i
    constructor
    · constructor
      · intro h; simp [maskIndicesFrom] at h
      · intro h; simp at h; omega
    · intro h; simp [maskIndicesFrom] at h
  | cons b rest ih =>
    intro s i
    obtain ⟨ihIff, ihDisj⟩ := ih (s + 1) i
    have hlowA := maskIndicesFrom_lower rest (s + 1) i
    have hlowB := maskIndicesFrom_lower (rest.map (!·)) (s + 1) i
    cases b with
    | true =>
      simp only [maskIndicesFrom, List.map_cons, Bool.not_true, if_true,
        if_false, List.mem_cons, List.length_cons]
      constructor
      · constructor
        · rintro ((rfl | hA) | hB)
          · omega
          · have := ihIff.mp (Or.inl hA); omega
          · have := ihIff.mp (Or.inr hB); omega
        · intro hb
          by_cases hi : i = s
          · exact Or.inl (Or.inl hi)
          · rcases ihIff.mpr (by omega) with hA | hB
            · exact Or.inl (Or.inr hA)
            · exact Or.inr hB
      · rintro ⟨(rfl | hA), hB⟩
        · exact absurd (hlowB hB) (by omega)
        · exact ihDisj ⟨hA, hB⟩
    | false =>
      simp only [maskIndicesFrom, List.map_cons, Bool.not_false, if_true,
        if_false, List.mem_cons, List.length_cons]
      constructor
      · constructor
        · rintro (hA | (rfl | hB))
          · have := ihIff.mp (Or.inl hA); omega
          · omega
          · have := ihIff.mp (Or.inr hB); omega
        · intro hb
          by_cases hi : i = s
          · exact Or.inr (Or.inl hi)
          · rcases ihIff.mpr (by omega) with hA | hB
            · exact Or.inl hA
            · exact Or.inr (Or.inr hB)
      · rintro ⟨hA, (rfl | hB)⟩
        · exact absurd (hlowA hA) (by omega)
        · exact ihDisj ⟨hA, hB⟩

/-- C4: for every expression matrix with a harmonized cell-type
annotation column, whatever values that column contains, the rows
selected for cell type "Tumor" (value equal to the literal "Tumor") and
the rows selected for cell type "Non-Tumor" (value different from
"Tumor") partition the matrix: every row index appears in exactly one of
the two selections, with no overlap and no omission. -/
theorem tumor_nontumor_partition (col : List String) (i : Nat) :
    ∃ tum non,
      subsetStep (some "Tumor") ⟨col.length, some col⟩ = Except.ok tum ∧
      subsetStep (some "Non-Tumor") ⟨col.length, some col⟩ = Except.ok non ∧
      ((i ∈ tum ∨ i ∈ non) ↔ i < col.length) ∧ ¬(i ∈ tum ∧ i ∈ non) := by
  refine ⟨_, _, rfl, rfl, ?_, ?_⟩
  · have hmap : col.map (fun v => !(v == "Tumor"))
        = (col.map (fun v => v == "Tumor")).map (!·) := by
      rw [List.map_map]; rfl
    rw [hmap]
    have h := (maskIndicesFrom_partition (col.map (fun v => v == "Tumor")) 0 i).1
    simpa using h
  · have hmap : col.map (fun v => !(v == "Tumor"))
        = (col.map (fun v => v == "Tumor")).map (!·) := by
      rw [List.map_map]; rfl
    rw [hmap]
    exact (maskIndicesFrom_partition (col.map (fun v => v == "Tumor")) 0 i).2

/-- C9: when a cell-type subset is requested (any truthy cell-type
value) and the harmonized annotation column
`cell_type.harmonized.cancer` is absent from the matrix, the selection
raises (the pandas `KeyError` on the column, which the spec's taxonomy
names `MissingAnnotationError`); it never silently returns the full
unfiltered matrix in that case. -/
theorem missing_column_raises (ct : String) (n : Nat) (h : ct ≠ "") :
    subsetStep (some ct) ⟨n, none⟩ =
      Except.error (WorkflowError.keyError "cell_type.harmonized.cancer") ∧
    ∀ idxs, subsetStep (some ct) ⟨n, none⟩ ≠ Except.ok idxs := by
  have hct : cellTypeTruthy (some ct) = true := by
    simp only [cellTypeTruthy, bne_iff_ne, ne_eq]
    exact h
  constructor
  · simp [subsetStep, hct]
  · intro idxs hcontra
    simp [subsetStep, hct] at hcontra

theorem missing_column_raises_check :
    subsetStep (some "Tumor") ⟨5, none⟩ =
      Except.error (WorkflowError.keyError "cell_type.harmonized.cancer") ∧
    ∀ idxs, subsetStep (some "Tumor") ⟨5, none⟩ ≠ Except.ok idxs :=
  missing_column_raises "Tumor" 5 (by decide)

theorem invokedStages_first_error (l : List (Except String Unit)) :
    ∀ k e, l[k]? = some (Except.error e) →
      (∀ i, i < k → l[i]? = some (Except.ok ())) →
      invokedStages l = k + 1 := by
  induction l with
  | nil => intro k e hk _; simp at hk
  | cons hd tl ih =>
    intro k e hk hpre
    cases k with
    | zero =>
      simp only [List.getElem?_cons_zero, Option.some.injEq] at hk
      rw [hk]
      simp [invokedStages]
    | succ k2 =>
      have h0 := hpre 0 (Nat.succ_pos k2)
      simp only [List.getElem?_cons_zero, Option.some.injEq] at h0
      rw [h0]
      simp only [invokedStages]
      have htl := ih k2 e (by simpa using hk)
        (fun i hi => by simpa using hpre (i + 1) (by omega))
      omega

/-- C5: if any operation of `run_pyscenic_workflow` fails (raises an
error, including the `CalledProcessError` produced by
`subprocess.run(..., check=True)` on a non-zero exit), no subsequent
operation is ever invoked: the straight-line body has no exception
handler and no retry, so the run aborts at the first failure with
exactly the operations up to and including the failing one entered. -/
theorem fail_fast (outcome : String → Except String Unit) (k : Nat)
    (e : String)
    (hk : (pyscenicStageNames.map outcome)[k]? = some (Except.error e))
    (hpre : ∀ i, i < k →
      (pyscenicStageNames.map outcome)[i]? = some (Except.ok ())) :
    runPyscenicStages outcome = k + 1 ∧
      ∀ j, k < j → ¬ stageInvoked outcome j := by
  have h : runPyscenicStages outcome = k + 1 :=
    invokedStages_first_error _ k e hk hpre
  refine ⟨h, fun j hj hcon => ?_⟩
  have : j < k + 1 := h ▸ hcon
  omega

/-- An outcome assignment in which the GRN-inference subprocess exits
non-zero (so `subprocess.run(..., check=True)` raises) and every other
operation would succeed. -/
def grnFailsOutcome (s : String) : Except String Unit :=
  if s == "grn_inference_subprocess" then Except.error "CalledProcessError"
  else Except.ok ()

theorem fail_fast_check :
    runPyscenicStages grnFailsOutcome = 5 ∧
      ∀ j, 4 < j → ¬ stageInvoked grnFailsOutcome j :=
  fail_fast grnFailsOutcome 4 "CalledProcessError" rfl
    (by intro i hi; interval_cases i <;> rfl)

/-- C3 counterexample: the scoring (AUCell) stage entered with an empty
filesystem — in particular the regulon artifact named as its input does
not exist — still starts the external scoring subprocess and raises
nothing beforehand, contradicting the claim that it raises
`UnmetDependencyError` and never invokes the tool. -/
theorem aucell_stage_invokes_without_regulons :
    pexample.regulons ∉ ([] : List String) ∧
    (aucellStage [] pexample).subprocessCommands ≠ [] ∧
    (aucellStage [] pexample).raisedBefore = none := by
  refine ⟨by simp, by simp [aucellStage], rfl⟩

/-- C3 (amended): when the scoring (AUCell) stage is reached, the code
performs no dependency check at all: whatever the filesystem contents,
the stage body unconditionally starts the external scoring subprocess
with the AUCell command and raises no error before doing so (the program
defines no `UnmetDependencyError`; a missing regulons file can only
surface as a failure of the earlier `pd.read_csv` in step 3 or of the
external tool itself). -/
theorem aucell_stage_unconditional (fs fs2 : List String) (p : PathSet) :
    aucellStage fs p = aucellStage fs2 p ∧
    (aucellStage fs p).subprocessCommands = [aucellCommand p] ∧
    (aucellStage fs p).raisedBefore = none :=
  ⟨rfl, rfl, rfl⟩

theorem strData_append (s t : String) : (s ++ t).data = s.data ++ t.data := by
  cases s; cases t; rfl

theorem ctx_contains_flag (p : PathSet) :
    strContains (ctxCommand p (some false)) "--no_pruning" := by
  show ("--no_pruning").data <:+: (ctxCommandBase p ++ " --no_pruning").data
  refine ⟨(ctxCommandBase p).data ++ [' '], [], ?_⟩
  rw [strData_append]
  have h : (" --no_pruning").data = ' ' :: ("--no_pruning").data := rfl
  rw [h]
  simp

/-- C8: the context-inference command contains the `--no_pruning` flag
if and only if the pruning option is the explicit value `False`; when
pruning is `True` or unset the command is the base command, which (for
any PathSet whose entries do not themselves spell out the flag) does not
contain it. -/
theorem ctx_pruning_flag_iff (p : PathSet) (pruning : Option Bool)
    (hbase : ¬ strContains (ctxCommandBase p) "--no_pruning") :
    strContains (ctxCommand p pruning) "--no_pruning" ↔
      pruning = some false := by
  constructor
  · intro h
    match pruning with
    | none => exact absurd h hbase
    | some true => exact absurd h hbase
    | some false => rfl
  · rintro rfl
    exact ctx_contains_flag p

theorem ctx_pruning_flag_iff_check :
    ¬ strContains (ctxCommandBase pexample) "--no_pruning" ∧
    (strContains (ctxCommand pexample (some true)) "--no_pruning" ↔
      (some true : Option Bool) = some false) :=
  ⟨by decide, ctx_pruning_flag_iff pexample (some true) (by decide)⟩

/-- C6 counterexample: two calls of the path resolver with structurally
equal contexts (same base folder, dataset id, sample id, cell type,
pruning) but different filesystem contents in the databases directory
(no `.feather` ranking database present vs one present) yield different
PathSets: the `ranking_dbs` entry is derived from a `glob.glob` over the
filesystem, so hidden mutable state outside the context parameters does
influence path derivation. -/
theorem ranking_dbs_depends_on_filesystem :
    ∃ p q,
      get_analysis_paths "b" "d" "s" (some "Tumor") (some false) []
        = Except.ok p ∧
      get_analysis_paths "b" "d" "s" (some "Tumor") (some false)
        ["b/databases/r1.feather"] = Except.ok q ∧
      p.1.ranking_dbs ≠ q.1.ranking_dbs := by
  refine ⟨_, _, rfl, rfl, by decide⟩

/-- C6 (amended): path resolution is a pure function of the context
together with the `glob.glob` result over the databases directory: for
two calls with structurally equal contexts, every PathSet entry except
`ranking_dbs` — and the list of directories created — coincides
regardless of the filesystem, and with equal glob results the whole
result is identical; only the `ranking_dbs` entry depends on filesystem
contents outside the context parameters. -/
theorem resolver_pure_modulo_glob (base_folder dataset_id sample_id : String)
    (ct : Option String) (pr : Option Bool) (fg fg2 : List String)
    {p q : PathSet × List String}
    (hp : get_analysis_paths base_folder dataset_id sample_id ct pr fg
      = Except.ok p)
    (hq : get_analysis_paths base_folder dataset_id sample_id ct pr fg2
      = Except.ok q) :
    p.1 = { q.1 with ranking_dbs := p.1.ranking_dbs } ∧ p.2 = q.2 := by
  unfold get_analysis_paths at hp hq
  split at hp
  · exact Except.noConfusion hp
  · split at hq
    · exact Except.noConfusion hq
    · injection hp with hp1
      injection hq with hq1
      subst hp1
      subst hq1
      exact ⟨rfl, rfl⟩

theorem resolver_pure_modulo_glob_check :
    ∃ p q,
      get_analysis_paths "b" "d" "s" none (some true) ["r1.feather"]
        = Except.ok p ∧
      get_analysis_paths "b" "d" "s" none (some true) ["r2.feather"]
        = Except.ok q ∧
      (p.1 = { q.1 with ranking_dbs := p.1.ranking_dbs } ∧ p.2 = q.2) :=
  ⟨_, _, rfl, rfl,
    resolver_pure_modulo_glob "b" "d" "s" none (some true)
      ["r1.feather"] ["r2.feather"] rfl rfl⟩

/-- C7 counterexample: resolving with pruning set (`prune=false`) yields
an output directory `b/d/s/unpruned` that is not among the directories
created by the resolver — the `os.makedirs` loop at lines 85-86 runs
before the pruned/unpruned segment is appended at lines 89-91 — so with
an empty prior filesystem the directory artifacts are to be written into
does not exist after resolution. -/
theorem pruned_output_dir_not_created :
    ∃ ps,
      get_analysis_paths "b" "d" "s" none (some false) [] = Except.ok ps ∧
      ps.1.output = "b/d/s/unpruned" ∧ ps.1.output ∉ ps.2 := by
  refine ⟨_, rfl, by decide, by decide⟩

/-- C7 (amended): the directories created by path resolution are exactly
the five base entries — base, databases, raw_data, the sample-level
directory `<base>/<dataset_id>/<sample_id>`, and figures — each created
with `exist_ok=True` so that resolution never fails merely because a
directory already exists; the PathSet's `output` entry is guaranteed to
be among the created directories only when pruning is unset, because the
pruned/unpruned sub-segment is appended after the creation loop and is
not itself created. -/
theorem created_dirs_spec (base_folder dataset_id sample_id : String)
    (ct : Option String) (pr : Option Bool) (fg : List String)
    {ps : PathSet × List String}
    (h : get_analysis_paths base_folder dataset_id sample_id ct pr fg
      = Except.ok ps) :
    ps.2 = [ps.1.base, ps.1.databases, ps.1.raw_data,
            ospJoin (ospJoin base_folder dataset_id) sample_id,
            ps.1.figures] ∧
    (pr = none → ps.1.output ∈ ps.2) := by
  unfold get_analysis_paths at h
  split at h
  · exact Except.noConfusion h
  · injection h with h1
    subst h1
    refine ⟨rfl, ?_⟩
    rintro rfl
    simp [outputDir]

theorem created_dirs_spec_check :
    ∃ ps,
      get_analysis_paths "b" "d" "s" none none [] = Except.ok ps ∧
      (ps.2 = [ps.1.base, ps.1.databases, ps.1.raw_data,
               ospJoin (ospJoin "b" "d") "s", ps.1.figures] ∧
       ((none : Option Bool) = none → ps.1.output ∈ ps.2)) :=
  ⟨_, rfl, created_dirs_spec "b" "d" "s" none none [] rfl⟩

/-- C10: for any two successfully resolved contexts sharing a base
folder and dataset id — whatever their sample ids, cell types, pruning
flags, or filesystem glob results — the raw-input entries of the PathSet
coincide and are the fixed hard-coded names under
`<base>/<dataset_id>/raw_data/`. -/
theorem raw_inputs_fixed (base_folder dataset_id sid sid2 : String)
    (ct ct2 : Option String) (pr pr2 : Option Bool) (fg fg2 : List String)
    {p q : PathSet × List String}
    (hp : get_analysis_paths base_folder dataset_id sid ct pr fg
      = Except.ok p)
    (hq : get_analysis_paths base_folder dataset_id sid2 ct2 pr2 fg2
      = Except.ok q) :
    p.1.raw_matrix = q.1.raw_matrix ∧ p.1.metadata = q.1.metadata ∧
    p.1.raw_matrix
      = ospJoin (ospJoin (ospJoin base_folder dataset_id) "raw_data")
          "C3L-00004-T1_CPT0001540013_snRNA_ccRCC/outs/raw_feature_bc_matrix/" ∧
    p.1.metadata
      = ospJoin (ospJoin (ospJoin base_folder dataset_id) "raw_data")
          "GSE240822_GBM_ccRCC_RNA_metadata_CPTAC_samples.tsv.gz" := by
  unfold get_analysis_paths at hp hq
  split at hp
  · exact Except.noConfusion hp
  · split at hq
    · exact Except.noConfusion hq
    · injection hp with hp1
      injection hq with hq1
      subst hp1
      subst hq1
      exact ⟨rfl, rfl, rfl, rfl⟩

theorem raw_inputs_fixed_check :
    ∃ p q,
      get_analysis_paths "b" "d" "s" (some "Tumor") (some false) []
        = Except.ok p ∧
      get_analysis_paths "b" "d" "s2" none none ["r1.feather"]
        = Except.ok q ∧
      p.1.raw_matrix = q.1.raw_matrix ∧ p.1.metadata = q.1.metadata :=
  ⟨_, _, rfl, rfl,
    (raw_inputs_fixed "b" "d" "s" "s2" (some "Tumor") none (some false)
      none [] ["r1.feather"] rfl rfl).1,
    (raw_inputs_fixed "b" "d" "s" "s2" (some "Tumor") none (some false)
      none [] ["r1.feather"] rfl rfl).2.1⟩

/-- C1: evaluation of the workflow at the claimed scenario
(cell_type="Tumor", prune=false).  Because line 582 of
`run_pyscenic_workflow` re-resolves the paths without forwarding the
pruning argument, every artifact path the GRN workflow actually uses
carries the `Tumor_` prefix but sits directly under
`<base>/<dataset_id>/<sample_id>/` with no `unpruned` segment — even
though the context-inference command does contain both the
`Tumor_adjacencies.csv` input path and the `--no_pruning` flag, and even
though `get_analysis_paths` itself, when the pruning argument is passed
as the rest of the program does, places the same artifacts under
`.../unpruned/`. -/
theorem workflow_paths_drop_pruning :
    ∃ ps,
      workflowAnalysisPaths "b" "d" "s" (some "Tumor") [] = Except.ok ps ∧
      ps.1.adjacencies = "b/d/s/Tumor_adjacencies.csv" ∧
      ps.1.filtered_loom = "b/d/s/Tumor_filtered_scenic.loom" ∧
      ps.1.regulons = "b/d/s/Tumor_reg.csv" ∧
      ps.1.pyscenic_output = "b/d/s/Tumor_pyscenic_output.loom" ∧
      ¬ strContains ps.1.adjacencies "unpruned" ∧
      strContains (ctxCommand ps.1 (some false)) "--no_pruning" ∧
      strContains (ctxCommand ps.1 (some false)) "Tumor_adjacencies.csv" ∧
      ∃ qs,
        get_analysis_paths "b" "d" "s" (some "Tumor") (some false) []
          = Except.ok qs ∧
        qs.1.adjacencies = "b/d/s/unpruned/Tumor_adjacencies.csv" := by
  refine ⟨_, rfl, by decide, by decide, by decide, by decide, by decide,
    by decide, by decide, _, rfl, by decide⟩

/-- C2: evaluation of the CLI option handling against the path
resolver.  `parse_arguments` accepts cell-type values case-insensitively
and stores them lowercased, but `get_analysis_paths` validates
case-sensitively against the exact strings 'Tumor' and 'Non-Tumor', so
the value produced by CLI parsing — even for the canonical spelling
"Tumor" — is rejected with a ValueError; only the exact-case literals
(which CLI parsing can never produce) resolve. -/
theorem cli_cell_type_case_mismatch :
    parseCellType (some "Tumor") = Except.ok (some "tumor") ∧
    parseCellType (some "NON-TUMOR") = Except.ok (some "non-tumor") ∧
    get_analysis_paths "b" "d" "s" (some "tumor") none []
      = Except.error "cell_type must be Tumor, Non-Tumor, or None" ∧
    get_analysis_paths "b" "d" "s" (some "non-tumor") none []
      = Except.error "cell_type must be Tumor, Non-Tumor, or None" ∧
    ∃ ps, get_analysis_paths "b" "d" "s" (some "Tumor") none []
      = Except.ok ps := by
  refine ⟨rfl, rfl, rfl, rfl, _, rfl⟩
